import Mathlib

/-!
Shallow embedding of the `nullable` Go package (`nullable.go`).

The package defines a generic container `Nullable[T]` that embeds `sql.Null[T]`
(exported fields `V : T` and `Valid : bool`) and adds JSON marshalling plus the
database `Scan`/`Value` methods.  External collaborators are parameters of the
embedding:

* `T`'s JSON encoder (`json.Marshal` at type `T`) is a function
  `enc : T → Except ε String` (the produced byte slice is modelled as a
  `String`, since the Go code compares bytes via `string(data)`).
* `T`'s JSON decoder (`json.Unmarshal(data, &n.V)`) is a function
  `dec : String → T → T × Option ε`: it receives the input bytes and the
  current target value and yields the target's new value together with
  `none` on success or `some e` on failure (on failure `encoding/json` may
  or may not have written to the target, which an arbitrary `dec` covers).
* Go's zero value `var zero T` is passed explicitly as a parameter `zero : T`.
-/

namespace GoNullable

/-- The state of `Nullable[T]` (nullable.go:11): the embedded `sql.Null[T]`'s
fields `V` and `Valid`. -/
structure Nullable (T : Type) where
  V : T
  Valid : Bool
  deriving Repr, DecidableEq

/-- `NewNullable` (nullable.go:16): a valid container holding `value`. -/
def NewNullable {T : Type} (value : T) : Nullable T :=
  ⟨value, true⟩

/-- `NewNull` (nullable.go:26): an invalid container.  The Go composite literal
`Nullable[T]{sql.Null[T]{Valid: false}}` leaves `V` at the zero value of `T`,
which the embedding receives explicitly as `zero`. -/
def NewNull {T : Type} (zero : T) : Nullable T :=
  ⟨zero, false⟩

/-- `Ptr` (nullable.go:35): a pointer to the value when valid, `nil` otherwise;
the returned `*T` is modelled as an `Option T` carrying the pointed-to value. -/
def Ptr {T : Type} (n : Nullable T) : Option T :=
  if !n.Valid then none else some n.V

/-- `ValueOr` (nullable.go:43): the value when valid, otherwise the default.
The Go method has a value receiver and only reads it, so it is pure. -/
def ValueOr {T : Type} (n : Nullable T) (defaultValue : T) : T :=
  if !n.Valid then defaultValue else n.V

/-- `MarshalJSON` (nullable.go:51): the literal bytes `null` when invalid,
otherwise `json.Marshal` of the stored value (the parameter `enc`). -/
def MarshalJSON {T ε : Type} (enc : T → Except ε String) (n : Nullable T) :
    Except ε String :=
  if !n.Valid then Except.ok "null" else enc n.V

/-- `UnmarshalJSON` (nullable.go:59).  If `data` compares equal to the literal
`null` it sets `Valid := false` (leaving `V` untouched) and succeeds; otherwise
it sets `Valid := true` and then runs `T`'s decoder (the parameter `dec`) on
`V`, returning the decoder's error verbatim.  The Go method mutates the
receiver; the embedding returns the updated container and the returned error. -/
def UnmarshalJSON {T ε : Type} (dec : String → T → T × Option ε)
    (n : Nullable T) (data : String) : Nullable T × Option ε :=
  if data = "null" then
    (⟨n.V, false⟩, none)
  else
    ((⟨(dec data n.V).1, true⟩ : Nullable T), (dec data n.V).2)

/-- `Scan` (nullable.go:70) delegates to the embedded `sql.Null[T].Scan`.
Modelled from the spec: `sql.Null[T].Scan` is standard-library code outside
this repository.  Per the spec's Storage Binding contract, a storage-null
(`nil`) input sets `Valid := false` and `value` to the default and succeeds;
otherwise the raw input is handed to the driver's conversion utility (the
parameter `conv`, receiving the raw value and the current target value), with
`Valid := true` on success, and on failure the error is returned with `Valid`
unchanged and the value as left by the conversion utility. -/
def Scan {T ρ ε : Type} (conv : ρ → T → T × Option ε) (zero : T)
    (n : Nullable T) (value : Option ρ) : Nullable T × Option ε :=
  match value with
  | none => (⟨zero, false⟩, none)
  | some raw =>
    match (conv raw n.V).2 with
    | none => (⟨(conv raw n.V).1, true⟩, none)
    | some e => (⟨(conv raw n.V).1, n.Valid⟩, some e)

/-- `Value` (nullable.go:75): `(zero, nil)` when invalid, `(n.V, nil)` when
valid.  The error component is of an arbitrary type `ε` and is always absent. -/
def Value {T : Type} (ε : Type) (zero : T) (n : Nullable T) : T × Option ε :=
  if !n.Valid then (zero, none) else (n.V, none)

/-- The spec's data-model invariant: whenever `Valid` is false, `V` is the
zero value of `T`. -/
def Invariant {T : Type} (zero : T) (n : Nullable T) : Prop :=
  n.Valid = false → n.V = zero

/-- A model of Go's `encoding/json` decoder at `T = int`: leading and trailing
whitespace is skipped, the JSON token `null` is a successful no-op on a
non-pointer target, a decimal numeral is stored, and anything else fails. -/
def goIntDec (s : String) (t : Int) : Int × Option Unit :=
  if s.trim = "null" then (t, none)
  else
    match s.trim.toInt? with
    | some k => (k, none)
    | none => (t, some ())

/-- A model of a driver conversion at `T = int` (storage already delivers an
integer): the raw value is stored unchanged and conversion never fails. -/
def goIntConv (raw : Int) (_t : Int) : Int × Option Unit :=
  (raw, none)

/-- Go's standard JSON codec at `T = *bool` — a type with a standard codec —
modelled as `Option Bool`: the nil pointer encodes to the literal `null`.
Together with `optBoolDec` it round-trips at type `T`. -/
def optBoolEnc : Option Bool → Except Unit String
  | none => Except.ok "null"
  | some true => Except.ok "true"
  | some false => Except.ok "false"

/-- The matching decoder for `optBoolEnc` (Go's `json.Unmarshal` at `*bool`):
the token `null` yields the nil pointer. -/
def optBoolDec (s : String) (t : Option Bool) : Option Bool × Option Unit :=
  if s = "null" then (none, none)
  else if s = "true" then (some true, none)
  else if s = "false" then (some false, none)
  else (t, some ())

/-- Go's standard JSON encoder at `T = bool`: it round-trips with `boolDec`
and never emits the literal `null`. -/
def boolEnc : Bool → Except Unit String
  | true => Except.ok "true"
  | false => Except.ok "false"

/-- The matching decoder for `boolEnc` (Go's `json.Unmarshal` at `bool`). -/
def boolDec (s : String) (t : Bool) : Bool × Option Unit :=
  if s = "true" then (true, none)
  else if s = "false" then (false, none)
  else (t, some ())

/-- The round-trip claim exactly as stated: for every element type `T` with a
standard JSON codec — an encoder/decoder pair that round-trips at type `T` —
and every value `v`, decoding the bytes produced by encoding `NewNullable v`
into a fresh (zero) container yields `NewNullable v` with no error, and
decoding the bytes produced by encoding `NewNull zero` yields `NewNull zero`
with no error. -/
def RoundTripAsStated : Prop :=
  ∀ (T ε : Type) (zero : T) (enc : T → Except ε String)
    (dec : String → T → T × Option ε),
    (∀ v t s, enc v = Except.ok s → dec s t = (v, none)) →
    (∀ v s, MarshalJSON enc (NewNullable v) = Except.ok s →
        UnmarshalJSON dec (NewNull zero) s = (NewNullable v, none)) ∧
    (∀ s, MarshalJSON enc (NewNull zero) = Except.ok s →
        UnmarshalJSON dec (NewNull zero) s = (NewNull zero, none))

/-- C1 counterexample: decoding the literal `null` into a previously valid
container `NewNullable 42` does set `Valid := false` and succeed, but the
stored value stays `42` — it is not reset to the zero value `0` as the claim
states. -/
theorem unmarshal_null_noReset_cex :
    (UnmarshalJSON goIntDec (NewNullable (42 : Int)) "null").1.V ≠ 0 ∧
    (UnmarshalJSON goIntDec (NewNullable (42 : Int)) "null").1.Valid = false ∧
    (UnmarshalJSON goIntDec (NewNullable (42 : Int)) "null").2 = none := by
  refine ⟨?_, ?_, ?_⟩ <;> simp [UnmarshalJSON, NewNullable]

/-- C1 (amended): for every element type `T` and every prior state, decoding
data that is exactly the 4-byte literal `null` sets `Valid` to false and
succeeds with no error, leaving the stored value unchanged (rather than
resetting it to the zero value of `T`). -/
theorem unmarshal_null_amended {T ε : Type} (dec : String → T → T × Option ε)
    (n : Nullable T) :
    UnmarshalJSON dec n "null" = (⟨n.V, false⟩, none) := by
  simp [UnmarshalJSON]

/-- C2 counterexample: the container `NewNullable 42` satisfies the invariant
(vacuously, being valid), yet decoding the literal `null` into it produces a
container with `Valid = false` and `V = 42 ≠ 0`, violating the invariant.  So
the invariant is not preserved by `UnmarshalJSON`. -/
theorem invariant_not_preserved_cex :
    Invariant 0 (NewNullable (42 : Int)) ∧
    ¬ Invariant 0 (UnmarshalJSON goIntDec (NewNullable (42 : Int)) "null").1 := by
  constructor
  · intro h
    simp [NewNullable] at h
  · intro h
    have := h (by simp [UnmarshalJSON, NewNullable])
    simp [UnmarshalJSON, NewNullable] at this

/-- C2 (amended): the invariant `Valid = false → V = zero` holds after both
constructors, holds after `Scan` with a storage-null input, and holds after
`UnmarshalJSON` provided the prior stored value already equals the zero value;
without that proviso `UnmarshalJSON` on the literal `null` keeps the prior
value and can break the invariant. -/
theorem invariant_amended {T ρ ε : Type} (zero : T)
    (dec : String → T → T × Option ε) (conv : ρ → T → T × Option ε)
    (v : T) (n p : Nullable T) (data : String) (hp : p.V = zero) :
    Invariant zero (NewNullable v) ∧
    Invariant zero (NewNull zero) ∧
    Invariant zero (Scan conv zero n (none : Option ρ)).1 ∧
    Invariant zero (UnmarshalJSON dec p data).1 := by
  refine ⟨?_, ?_, ?_, ?_⟩
  · intro h; simp [NewNullable] at h
  · intro _; rfl
  · intro _; rfl
  · intro h
    by_cases hd : data = "null"
    · subst hd
      simpa [UnmarshalJSON] using hp
    · simp [UnmarshalJSON, hd] at h

/-- C2 witness: the amended invariant theorem at `T = Int`, with the prior
container `NewNull 0` (whose value is the zero value). -/
theorem invariant_amended_witness :
    (NewNull (0 : Int)).V = 0 ∧
    (Invariant 0 (NewNullable (5 : Int)) ∧
     Invariant 0 (NewNull (0 : Int)) ∧
     Invariant 0 (Scan goIntConv 0 (NewNullable (5 : Int)) (none : Option Int)).1 ∧
     Invariant 0 (UnmarshalJSON goIntDec (NewNull (0 : Int)) "null").1) :=
  ⟨rfl, invariant_amended 0 goIntDec goIntConv 5 (NewNullable 5) (NewNull 0) "null" rfl⟩

/-- C3: for every input that is not exactly the 4-byte literal `null`,
`UnmarshalJSON` leaves the container with `Valid = true` (the flag is set
before `T`'s decode runs, and is not rolled back) and returns exactly the
error produced by `T`'s decoder on that input. -/
theorem unmarshal_nonNull {T ε : Type} (dec : String → T → T × Option ε)
    (n : Nullable T) (data : String) (h : data ≠ "null") :
    (UnmarshalJSON dec n data).1.Valid = true ∧
    (UnmarshalJSON dec n data).2 = (dec data n.V).2 := by
  simp [UnmarshalJSON, h]

/-- C3 witness: decoding the malformed input `oops` at `T = Int` leaves the
container valid and propagates the decoder's error. -/
theorem unmarshal_nonNull_witness :
    ("oops" : String) ≠ "null" ∧
    ((UnmarshalJSON goIntDec (NewNullable (7 : Int)) "oops").1.Valid = true ∧
     (UnmarshalJSON goIntDec (NewNullable (7 : Int)) "oops").2 =
       (goIntDec "oops" (7 : Int)).2) :=
  ⟨by decide, unmarshal_nonNull goIntDec (NewNullable 7) "oops" (by decide)⟩

/-- C5: for every element type `T` and every encoder, marshalling the empty
container produces exactly the literal `null` — which is 4 bytes long — and
no error. -/
theorem marshal_null {T ε : Type} (enc : T → Except ε String) (zero : T) :
    MarshalJSON enc (NewNull zero) = Except.ok "null" ∧
    ("null" : String).length = 4 := by
  exact ⟨rfl, rfl⟩

/-- C6: for every element type `T`, scanning a storage-null (`nil`) input sets
`Valid` to false and the value to the zero value of `T`, and returns no error
(the nil branch of `sql.Null[T].Scan`, modelled from the spec). -/
theorem scan_nil {T ρ ε : Type} (conv : ρ → T → T × Option ε) (zero : T)
    (n : Nullable T) :
    Scan conv zero n (none : Option ρ) = (NewNull zero, none) := by
  rfl

/-- C7: `Value` never returns an error: the error component is always `none`,
and the value component is the stored value when valid and the zero value when
invalid; in particular at `T = String` the empty container yields `""`. -/
theorem value_no_error {T : Type} (ε : Type) (zero : T) (n : Nullable T) :
    Value ε zero n = ((if n.Valid then n.V else zero), (none : Option ε)) ∧
    Value ε "" (NewNull "") = (("" : String), (none : Option ε)) := by
  constructor
  · cases n with
    | mk v valid => cases valid <;> simp [Value]
  · rfl

/-- C8: `ValueOr` on a valid container returns the stored value and on the
empty container returns the supplied default; being a Lean function of a value
receiver, it is pure and leaves the container untouched. -/
theorem valueOr_spec {T : Type} (v d zero : T) :
    ValueOr (NewNullable v) d = v ∧ ValueOr (NewNull zero) d = d :=
  ⟨rfl, rfl⟩

/-- C9: `Ptr` on a valid container is a non-nil pointer to a value equal to
the stored one (`some v`), and on the empty container is the nil pointer
(`none`). -/
theorem ptr_spec {T : Type} (v zero : T) :
    Ptr (NewNullable v) = some v ∧ Ptr (NewNull zero) = none :=
  ⟨rfl, rfl⟩

/-- C10: null-detection is an exact byte comparison, so any input other than
the exact 4 bytes `null` takes the non-null branch: the result is a valid
container holding whatever `T`'s decoder left in the value. -/
theorem unmarshal_exact_match {T ε : Type} (dec : String → T → T × Option ε)
    (n : Nullable T) (data : String) (h : data ≠ "null") :
    (UnmarshalJSON dec n data).1 = ⟨(dec data n.V).1, true⟩ := by
  simp [UnmarshalJSON, h]

/-- C10 witness: the 5-byte input ` null` (leading space) denotes JSON null,
yet the container comes out valid: at `T = Int` the decoder treats the token
`null` as a successful no-op, so the result is `⟨0, true⟩`. -/
theorem unmarshal_exact_match_witness :
    (" null" : String) ≠ "null" ∧
    (UnmarshalJSON goIntDec (NewNull (0 : Int)) " null").1 =
      ⟨(goIntDec " null" (0 : Int)).1, true⟩ :=
  ⟨by decide, unmarshal_exact_match goIntDec (NewNull 0) " null" (by decide)⟩

/-- C4 counterexample: the round-trip claim as stated is false.  At
`T = Option Bool` (Go's `*bool`, which has a standard, round-tripping JSON
codec), encoding `NewNullable none` produces the literal `null`, which the
container's decoder turns into an invalid container — not `NewNullable none`. -/
theorem roundTrip_asStated_false : ¬ RoundTripAsStated := by
  intro h
  have hcodec : ∀ (v t : Option Bool) (s : String),
      optBoolEnc v = Except.ok s → optBoolDec s t = (v, none) := by
    intro v t s hv
    cases v with
    | none =>
      simp only [optBoolEnc] at hv
      cases hv
      simp [optBoolDec]
    | some b =>
      cases b <;> simp only [optBoolEnc] at hv <;> cases hv <;> simp [optBoolDec]
  have hrt := (h (Option Bool) Unit none optBoolEnc optBoolDec hcodec).1 none "null" rfl
  exact absurd hrt (by decide)

/-- C4 (amended): the round-trip holds provided `T`'s encoding of the value is
not itself the literal `null` (as it is, for example, for Go pointer types
encoding nil): if `enc v` succeeds with bytes `s`, `s` is not the literal
`null`, and `T`'s decoder recovers `v` from `s` on a fresh target, then
decoding the encoding of `NewNullable v` into a fresh container yields exactly
`NewNullable v` with no error; and decoding the encoding of `NewNull zero`
(which is the literal `null`) into a fresh container yields exactly
`NewNull zero` with no error, unconditionally. -/
theorem roundTrip_amended {T ε : Type} (zero : T) (enc : T → Except ε String)
    (dec : String → T → T × Option ε) (v : T) (s : String)
    (henc : enc v = Except.ok s) (hnn : s ≠ "null")
    (hdec : dec s zero = (v, none)) :
    (MarshalJSON enc (NewNullable v) = Except.ok s ∧
     UnmarshalJSON dec (NewNull zero) s = (NewNullable v, none)) ∧
    (MarshalJSON enc (NewNull zero) = Except.ok "null" ∧
     UnmarshalJSON dec (NewNull zero) "null" = (NewNull zero, none)) := by
  refine ⟨⟨?_, ?_⟩, ?_, ?_⟩
  · simpa [MarshalJSON, NewNullable] using henc
  · simp [UnmarshalJSON, NewNull, NewNullable, hnn, hdec]
  · rfl
  · simp [UnmarshalJSON, NewNull]

/-- C4 witness: the amended round-trip at `T = Bool` with `v = true`, whose
encoding `"true"` is not the literal `null`. -/
theorem roundTrip_amended_witness :
    (boolEnc true = Except.ok "true" ∧ ("true" : String) ≠ "null" ∧
      boolDec "true" false = (true, none)) ∧
    ((MarshalJSON boolEnc (NewNullable true) = Except.ok "true" ∧
      UnmarshalJSON boolDec (NewNull false) "true" = (NewNullable true, none)) ∧
     (MarshalJSON boolEnc (NewNull false) = Except.ok "null" ∧
      UnmarshalJSON boolDec (NewNull false) "null" = (NewNull false, none))) :=
  ⟨⟨rfl, by decide, by decide⟩,
   roundTrip_amended false boolEnc boolDec true "true" rfl (by decide) (by decide)⟩

end GoNullable
